import Mathlib

/-!
Shallow embedding of the WebGL2 dEQP TypeScript port:
 * `framework/opengl/gluShaderUtil.ts` (data-type enum and its helpers),
 * `framework/opengl/gluVarType.ts` (the recursive `VarType` model),
 * `framework/opengl/gluVarTypeUtil.ts` (type paths: validation, resolution,
   tokenizer/parser, iterators),
 * the transform-feedback test module (topology counting functions, input
   layout computation, output comparison, draw-call scripts).

Modelling conventions: JavaScript exceptions become `Except String`;
JavaScript numbers that only ever hold integers become `Int`; JavaScript
numbers flowing through float division become `ℚ` (binary64 rounding is
irrelevant for every fact proved here, noted at each use); `null`-able
fields become `Option`.
-/

/-- `gluShaderUtil.DataType` enum, in source order (numeric codes 0..40). -/
inductive DataType
  | INVALID
  | FLOAT | FLOAT_VEC2 | FLOAT_VEC3 | FLOAT_VEC4
  | FLOAT_MAT2 | FLOAT_MAT2X3 | FLOAT_MAT2X4
  | FLOAT_MAT3X2 | FLOAT_MAT3 | FLOAT_MAT3X4
  | FLOAT_MAT4X2 | FLOAT_MAT4X3 | FLOAT_MAT4
  | INT | INT_VEC2 | INT_VEC3 | INT_VEC4
  | UINT | UINT_VEC2 | UINT_VEC3 | UINT_VEC4
  | BOOL | BOOL_VEC2 | BOOL_VEC3 | BOOL_VEC4
  | SAMPLER_2D | SAMPLER_CUBE | SAMPLER_2D_ARRAY | SAMPLER_3D
  | SAMPLER_2D_SHADOW | SAMPLER_CUBE_SHADOW | SAMPLER_2D_ARRAY_SHADOW
  | INT_SAMPLER_2D | INT_SAMPLER_CUBE | INT_SAMPLER_2D_ARRAY | INT_SAMPLER_3D
  | UINT_SAMPLER_2D | UINT_SAMPLER_CUBE | UINT_SAMPLER_2D_ARRAY | UINT_SAMPLER_3D
  deriving DecidableEq, Repr, Fintype

/-- The numeric code of each `DataType` member (TypeScript enums are numbers,
assigned 0,1,2,... in declaration order). -/
def dataTypeCode : DataType → Int
  | .INVALID => 0
  | .FLOAT => 1 | .FLOAT_VEC2 => 2 | .FLOAT_VEC3 => 3 | .FLOAT_VEC4 => 4
  | .FLOAT_MAT2 => 5 | .FLOAT_MAT2X3 => 6 | .FLOAT_MAT2X4 => 7
  | .FLOAT_MAT3X2 => 8 | .FLOAT_MAT3 => 9 | .FLOAT_MAT3X4 => 10
  | .FLOAT_MAT4X2 => 11 | .FLOAT_MAT4X3 => 12 | .FLOAT_MAT4 => 13
  | .INT => 14 | .INT_VEC2 => 15 | .INT_VEC3 => 16 | .INT_VEC4 => 17
  | .UINT => 18 | .UINT_VEC2 => 19 | .UINT_VEC3 => 20 | .UINT_VEC4 => 21
  | .BOOL => 22 | .BOOL_VEC2 => 23 | .BOOL_VEC3 => 24 | .BOOL_VEC4 => 25
  | .SAMPLER_2D => 26 | .SAMPLER_CUBE => 27 | .SAMPLER_2D_ARRAY => 28
  | .SAMPLER_3D => 29
  | .SAMPLER_2D_SHADOW => 30 | .SAMPLER_CUBE_SHADOW => 31
  | .SAMPLER_2D_ARRAY_SHADOW => 32
  | .INT_SAMPLER_2D => 33 | .INT_SAMPLER_CUBE => 34
  | .INT_SAMPLER_2D_ARRAY => 35 | .INT_SAMPLER_3D => 36
  | .UINT_SAMPLER_2D => 37 | .UINT_SAMPLER_CUBE => 38
  | .UINT_SAMPLER_2D_ARRAY => 39 | .UINT_SAMPLER_3D => 40

/-- Partial inverse of `dataTypeCode`.  A JavaScript number outside the enum
range is not any enum member; it behaves in every subsequent `switch` exactly
like `INVALID` (no case matches), so it is mapped to `INVALID` here. -/
def dataTypeFromCode : Int → DataType
  | 0 => .INVALID
  | 1 => .FLOAT | 2 => .FLOAT_VEC2 | 3 => .FLOAT_VEC3 | 4 => .FLOAT_VEC4
  | 5 => .FLOAT_MAT2 | 6 => .FLOAT_MAT2X3 | 7 => .FLOAT_MAT2X4
  | 8 => .FLOAT_MAT3X2 | 9 => .FLOAT_MAT3 | 10 => .FLOAT_MAT3X4
  | 11 => .FLOAT_MAT4X2 | 12 => .FLOAT_MAT4X3 | 13 => .FLOAT_MAT4
  | 14 => .INT | 15 => .INT_VEC2 | 16 => .INT_VEC3 | 17 => .INT_VEC4
  | 18 => .UINT | 19 => .UINT_VEC2 | 20 => .UINT_VEC3 | 21 => .UINT_VEC4
  | 22 => .BOOL | 23 => .BOOL_VEC2 | 24 => .BOOL_VEC3 | 25 => .BOOL_VEC4
  | 26 => .SAMPLER_2D | 27 => .SAMPLER_CUBE | 28 => .SAMPLER_2D_ARRAY
  | 29 => .SAMPLER_3D
  | 30 => .SAMPLER_2D_SHADOW | 31 => .SAMPLER_CUBE_SHADOW
  | 32 => .SAMPLER_2D_ARRAY_SHADOW
  | 33 => .INT_SAMPLER_2D | 34 => .INT_SAMPLER_CUBE
  | 35 => .INT_SAMPLER_2D_ARRAY | 36 => .INT_SAMPLER_3D
  | 37 => .UINT_SAMPLER_2D | 38 => .UINT_SAMPLER_CUBE
  | 39 => .UINT_SAMPLER_2D_ARRAY | 40 => .UINT_SAMPLER_3D
  | _ => .INVALID

/-- `getDataTypeVector`: the source returns `scalarType + size - 1` (enum-code
arithmetic) for the four scalar types, `INVALID` otherwise. -/
def getDataTypeVector (scalarType : DataType) (size : Int) : DataType :=
  match scalarType with
  | .FLOAT | .INT | .UINT | .BOOL =>
      dataTypeFromCode (dataTypeCode scalarType + size - 1)
  | _ => .INVALID

/-- `getDataTypeFloatVec(vecSize) = getDataTypeVector(FLOAT, vecSize)`. -/
def getDataTypeFloatVec (vecSize : Int) : DataType :=
  getDataTypeVector .FLOAT vecSize

/-- `isDataTypeMatrix`: true exactly on the nine `FLOAT_MAT*` members. -/
def isDataTypeMatrix : DataType → Bool
  | .FLOAT_MAT2 | .FLOAT_MAT2X3 | .FLOAT_MAT2X4
  | .FLOAT_MAT3X2 | .FLOAT_MAT3 | .FLOAT_MAT3X4
  | .FLOAT_MAT4X2 | .FLOAT_MAT4X3 | .FLOAT_MAT4 => true
  | _ => false

/-- `isDataTypeVector`: the twelve `*_VEC*` members. -/
def isDataTypeVector : DataType → Bool
  | .FLOAT_VEC2 | .FLOAT_VEC3 | .FLOAT_VEC4
  | .INT_VEC2 | .INT_VEC3 | .INT_VEC4
  | .UINT_VEC2 | .UINT_VEC3 | .UINT_VEC4
  | .BOOL_VEC2 | .BOOL_VEC3 | .BOOL_VEC4 => true
  | _ => false

/-- `isDataTypeScalar`: FLOAT, INT, UINT, BOOL. -/
def isDataTypeScalar : DataType → Bool
  | .FLOAT | .INT | .UINT | .BOOL => true
  | _ => false

/-- `isDataTypeScalarOrVector`. -/
def isDataTypeScalarOrVector : DataType → Bool
  | .FLOAT | .FLOAT_VEC2 | .FLOAT_VEC3 | .FLOAT_VEC4
  | .INT | .INT_VEC2 | .INT_VEC3 | .INT_VEC4
  | .UINT | .UINT_VEC2 | .UINT_VEC3 | .UINT_VEC4
  | .BOOL | .BOOL_VEC2 | .BOOL_VEC3 | .BOOL_VEC4 => true
  | _ => false

/-- `getDataTypeMatrixNumRows`; the source throws on non-matrix input. -/
def getDataTypeMatrixNumRows : DataType → Except String Int
  | .FLOAT_MAT2 => pure 2
  | .FLOAT_MAT2X3 => pure 3
  | .FLOAT_MAT2X4 => pure 4
  | .FLOAT_MAT3X2 => pure 2
  | .FLOAT_MAT3 => pure 3
  | .FLOAT_MAT3X4 => pure 4
  | .FLOAT_MAT4X2 => pure 2
  | .FLOAT_MAT4X3 => pure 3
  | .FLOAT_MAT4 => pure 4
  | _ => throw "Unrecognized dataType"

/-- `getDataTypeMatrixNumColumns`; the source throws on non-matrix input. -/
def getDataTypeMatrixNumColumns : DataType → Except String Int
  | .FLOAT_MAT2 => pure 2
  | .FLOAT_MAT2X3 => pure 2
  | .FLOAT_MAT2X4 => pure 2
  | .FLOAT_MAT3X2 => pure 3
  | .FLOAT_MAT3 => pure 3
  | .FLOAT_MAT3X4 => pure 3
  | .FLOAT_MAT4X2 => pure 4
  | .FLOAT_MAT4X3 => pure 4
  | .FLOAT_MAT4 => pure 4
  | _ => throw "Unrecognized dataType"

/-- `getDataTypeScalarSize`; total on the enum except `INVALID` (the source
`switch` covers every member but `INVALID` and throws on fall-through). -/
def getDataTypeScalarSize : DataType → Except String Int
  | .FLOAT => pure 1 | .FLOAT_VEC2 => pure 2 | .FLOAT_VEC3 => pure 3
  | .FLOAT_VEC4 => pure 4
  | .FLOAT_MAT2 => pure 4 | .FLOAT_MAT2X3 => pure 6 | .FLOAT_MAT2X4 => pure 8
  | .FLOAT_MAT3X2 => pure 6 | .FLOAT_MAT3 => pure 9 | .FLOAT_MAT3X4 => pure 12
  | .FLOAT_MAT4X2 => pure 8 | .FLOAT_MAT4X3 => pure 12 | .FLOAT_MAT4 => pure 16
  | .INT => pure 1 | .INT_VEC2 => pure 2 | .INT_VEC3 => pure 3
  | .INT_VEC4 => pure 4
  | .UINT => pure 1 | .UINT_VEC2 => pure 2 | .UINT_VEC3 => pure 3
  | .UINT_VEC4 => pure 4
  | .BOOL => pure 1 | .BOOL_VEC2 => pure 2 | .BOOL_VEC3 => pure 3
  | .BOOL_VEC4 => pure 4
  | .SAMPLER_2D => pure 1 | .SAMPLER_CUBE => pure 1
  | .SAMPLER_2D_ARRAY => pure 1 | .SAMPLER_3D => pure 1
  | .SAMPLER_2D_SHADOW => pure 1 | .SAMPLER_CUBE_SHADOW => pure 1
  | .SAMPLER_2D_ARRAY_SHADOW => pure 1
  | .INT_SAMPLER_2D => pure 1 | .INT_SAMPLER_CUBE => pure 1
  | .INT_SAMPLER_2D_ARRAY => pure 1 | .INT_SAMPLER_3D => pure 1
  | .UINT_SAMPLER_2D => pure 1 | .UINT_SAMPLER_CUBE => pure 1
  | .UINT_SAMPLER_2D_ARRAY => pure 1 | .UINT_SAMPLER_3D => pure 1
  | .INVALID => throw "Unrecognized dataType"

/-- `getDataTypeScalarType`: the scalar-kind name as a string, as in the
source (which returns `'float' | 'int' | 'uint' | 'bool' | sampler names`). -/
def getDataTypeScalarType : DataType → Except String String
  | .FLOAT | .FLOAT_VEC2 | .FLOAT_VEC3 | .FLOAT_VEC4
  | .FLOAT_MAT2 | .FLOAT_MAT2X3 | .FLOAT_MAT2X4
  | .FLOAT_MAT3X2 | .FLOAT_MAT3 | .FLOAT_MAT3X4
  | .FLOAT_MAT4X2 | .FLOAT_MAT4X3 | .FLOAT_MAT4 => pure "float"
  | .INT | .INT_VEC2 | .INT_VEC3 | .INT_VEC4 => pure "int"
  | .UINT | .UINT_VEC2 | .UINT_VEC3 | .UINT_VEC4 => pure "uint"
  | .BOOL | .BOOL_VEC2 | .BOOL_VEC3 | .BOOL_VEC4 => pure "bool"
  | .SAMPLER_2D => pure "sampler2D"
  | .SAMPLER_CUBE => pure "samplerCube"
  | .SAMPLER_2D_ARRAY => pure "sampler2DArray"
  | .SAMPLER_3D => pure "sampler3D"
  | .SAMPLER_2D_SHADOW => pure "sampler2DShadow"
  | .SAMPLER_CUBE_SHADOW => pure "samplerCubeShadow"
  | .SAMPLER_2D_ARRAY_SHADOW => pure "sampler2DArrayShadow"
  | .INT_SAMPLER_2D => pure "isampler2D"
  | .INT_SAMPLER_CUBE => pure "isamplerCube"
  | .INT_SAMPLER_2D_ARRAY => pure "isampler2DArray"
  | .INT_SAMPLER_3D => pure "isampler3D"
  | .UINT_SAMPLER_2D => pure "usampler2D"
  | .UINT_SAMPLER_CUBE => pure "usamplerCube"
  | .UINT_SAMPLER_2D_ARRAY => pure "usampler2DArray"
  | .UINT_SAMPLER_3D => pure "usampler3D"
  | .INVALID => throw "Unrecognized dataType"

/-- `getDataTypeScalarTypeAsDataType`: scalar component type of a
scalar/vector/matrix type; samplers map to themselves; `INVALID` throws. -/
def getDataTypeScalarTypeAsDataType : DataType → Except String DataType
  | .FLOAT | .FLOAT_VEC2 | .FLOAT_VEC3 | .FLOAT_VEC4
  | .FLOAT_MAT2 | .FLOAT_MAT2X3 | .FLOAT_MAT2X4
  | .FLOAT_MAT3X2 | .FLOAT_MAT3 | .FLOAT_MAT3X4
  | .FLOAT_MAT4X2 | .FLOAT_MAT4X3 | .FLOAT_MAT4 => pure .FLOAT
  | .INT | .INT_VEC2 | .INT_VEC3 | .INT_VEC4 => pure .INT
  | .UINT | .UINT_VEC2 | .UINT_VEC3 | .UINT_VEC4 => pure .UINT
  | .BOOL | .BOOL_VEC2 | .BOOL_VEC3 | .BOOL_VEC4 => pure .BOOL
  | .SAMPLER_2D => pure .SAMPLER_2D
  | .SAMPLER_CUBE => pure .SAMPLER_CUBE
  | .SAMPLER_2D_ARRAY => pure .SAMPLER_2D_ARRAY
  | .SAMPLER_3D => pure .SAMPLER_3D
  | .SAMPLER_2D_SHADOW => pure .SAMPLER_2D_SHADOW
  | .SAMPLER_CUBE_SHADOW => pure .SAMPLER_CUBE_SHADOW
  | .SAMPLER_2D_ARRAY_SHADOW => pure .SAMPLER_2D_ARRAY_SHADOW
  | .INT_SAMPLER_2D => pure .INT_SAMPLER_2D
  | .INT_SAMPLER_CUBE => pure .INT_SAMPLER_CUBE
  | .INT_SAMPLER_2D_ARRAY => pure .INT_SAMPLER_2D_ARRAY
  | .INT_SAMPLER_3D => pure .INT_SAMPLER_3D
  | .UINT_SAMPLER_2D => pure .UINT_SAMPLER_2D
  | .UINT_SAMPLER_CUBE => pure .UINT_SAMPLER_CUBE
  | .UINT_SAMPLER_2D_ARRAY => pure .UINT_SAMPLER_2D_ARRAY
  | .UINT_SAMPLER_3D => pure .UINT_SAMPLER_3D
  | .INVALID => throw "Unrecognized dataType"

/-- `gluShaderUtil.precision` enum (the source also declares the
`PRECISION_LAST` sentinel). -/
inductive Precision
  | PRECISION_LOWP
  | PRECISION_MEDIUMP
  | PRECISION_HIGHP
  | PRECISION_LAST
  deriving DecidableEq, Repr, Fintype

/-- `gluVarType.UNSIZED_ARRAY`: the array-size value marking unsized arrays. -/
def UNSIZED_ARRAY : Int := -1

/-- `gluVarType.VarType`: basic type, array of element type with size
(`UNSIZED_ARRAY` = unsized), or struct (ordered named members; the struct
type-name plays no role in any function modelled here). -/
inductive VarType
  | basic (type : DataType) (precision : Precision)
  | array (elementType : VarType) (size : Int)
  | structType (members : List (String × VarType))
  deriving Repr

/-- `VarType.getBasicType` with its `DE_ASSERT(isBasicType())`. -/
def VarType.getBasicTypeE : VarType → Except String DataType
  | .basic t _ => pure t
  | _ => throw "Assert failed"

/-- `VarType.getPrecision` with its `DE_ASSERT(isBasicType())`. -/
def VarType.getPrecisionE : VarType → Except String Precision
  | .basic _ p => pure p
  | _ => throw "Assert failed"

/-- `StructType.getMember(ndx)`: in-range index returns the member, anything
else yields `undefined` (modelled as `none`). -/
def structGetMember (members : List (String × VarType)) (i : Int) :
    Option (String × VarType) :=
  if 0 ≤ i then members.get? i.toNat else none

/-- `gluVarTypeUtil.ComponentType` enum (numeric codes 0..3). -/
inductive ComponentType
  | STRUCT_MEMBER
  | ARRAY_ELEMENT
  | MATRIX_COLUMN
  | VECTOR_COMPONENT
  deriving DecidableEq, Repr, Fintype

/-- `ComponentType.length = Object.keys(ComponentType).length / 2 = 4`. -/
def ComponentType.numValues : Int := 4

/-- A `VarTypeComponent`'s fields: `type` is `ComponentType | null` (the
constructor stores `null` for a falsy argument), `index` a number. -/
structure VarTypeComponent where
  type : Option ComponentType
  index : Int
  deriving DecidableEq, Repr

/-- The `VarTypeComponent(type_, index_)` constructor body:
`this.type = type_ || null; this.index = index_ || ComponentType.length`.
`STRUCT_MEMBER` has enum value 0, which is falsy, so it is replaced by
`null`; an `index_` of 0 is falsy, so it is replaced by
`ComponentType.length = 4`. -/
def mkVarTypeComponent (type_ : ComponentType) (index_ : Int) : VarTypeComponent :=
  { type := if type_ = ComponentType.STRUCT_MEMBER then none else some type_,
    index := if index_ = 0 then ComponentType.numValues else index_ }

/-- `VarTypeComponent.is`: strict equality of both fields. -/
def VarTypeComponent.is (a b : VarTypeComponent) : Bool :=
  a.type == b.type && a.index == b.index

/-- `inBounds(x, a, b) = a <= x && x < b`. -/
def inBounds (x a b : Int) : Bool :=
  a ≤ x && x < b

/-- The tail of `isValidTypePath` after its struct/array `while` loop breaks
with components remaining (source lines 529-562): the next component must be
a matrix-column or vector-component (anything else, e.g. the `null` type a
constructed struct-member component carries, throws `Not a matrix or a
vector`); the current type must be basic; a matrix-column step requires a
matrix and narrows to the float vector of its row count; a following
vector-component step requires a vector and consumes it; the path is valid
iff it is then exhausted.  Note: neither the matrix-column nor the
vector-component index is bounds-checked. -/
def isValidTypePathTail (curType : VarType) (l : List VarTypeComponent) :
    Except String Bool :=
  match l with
  | [] => pure true
  | e :: rest =>
    if ¬ (e.type = some ComponentType.MATRIX_COLUMN ∨
          e.type = some ComponentType.VECTOR_COMPONENT) then
      throw "Not a matrix or a vector"
    else
      match curType with
      | .basic bt _ =>
        if e.type = some ComponentType.MATRIX_COLUMN then
          if ¬ isDataTypeMatrix bt then pure false
          else
            match getDataTypeMatrixNumRows bt with
            | .error msg => throw msg
            | .ok rows =>
              match rest with
              | [] => pure true
              | e2 :: rest2 =>
                if e2.type = some ComponentType.VECTOR_COMPONENT then
                  if ¬ isDataTypeVector (getDataTypeFloatVec rows) then pure false
                  else pure rest2.isEmpty
                else pure false
        else
          if ¬ isDataTypeVector bt then pure false
          else pure rest.isEmpty
      | _ => pure false

/-- The struct/array prefix walk of `isValidTypePath` (source lines 498-527):
struct-member steps need a struct shape and an in-bounds index; array-element
steps need an array shape and an in-bounds index unless the array is unsized;
the first component of any other type ends the walk and is handed to
`isValidTypePathTail`. -/
def isValidTypePathAux : VarType → List VarTypeComponent → Except String Bool
  | _, [] => pure true
  | curType, e :: rest =>
    if e.type = some ComponentType.STRUCT_MEMBER then
      match curType with
      | .structType members =>
        if ¬ inBounds e.index 0 members.length then pure false
        else
          match structGetMember members e.index with
          | some m => isValidTypePathAux m.2 rest
          | none => throw "unreachable: index checked in bounds"
      | _ => pure false
    else if e.type = some ComponentType.ARRAY_ELEMENT then
      match curType with
      | .array elementType size =>
        if size ≠ UNSIZED_ARRAY ∧ ¬ inBounds e.index 0 size then pure false
        else isValidTypePathAux elementType rest
      | _ => pure false
    else
      isValidTypePathTail curType (e :: rest)

/-- `isValidTypePath(type, array)` over the whole path (every call in the
sources uses `begin = 0`; callers that pass a shorter `end` are modelled by
slicing the list first). -/
def isValidTypePath (type : VarType) (arr : List VarTypeComponent) :
    Except String Bool :=
  isValidTypePathAux type arr

/-- The second walk of `getVarType` (source lines 578-620), run after
validation: struct/array steps descend (`getStruct`/`getElementType` assert
their shape); on break, the remaining one or two components build a fresh
basic type from the current basic type and precision: a matrix-column step
replaces the basic type by the float vector of its row count, a
vector-component step by its scalar type; leftovers throw. -/
def getVarTypeAux : VarType → List VarTypeComponent → Except String VarType
  | curType, [] => pure curType
  | curType, e :: rest =>
    if e.type = some ComponentType.STRUCT_MEMBER then
      match curType with
      | .structType members =>
        match structGetMember members e.index with
        | some m => getVarTypeAux m.2 rest
        | none => throw "TypeError: member is undefined"
      | _ => throw "Assert failed"
    else if e.type = some ComponentType.ARRAY_ELEMENT then
      match curType with
      | .array elementType _ => getVarTypeAux elementType rest
      | _ => throw "Assert failed"
    else
      match curType.getBasicTypeE, curType.getPrecisionE with
      | .error msg, _ => throw msg
      | _, .error msg => throw msg
      | .ok bt, .ok prec =>
        if e.type = some ComponentType.MATRIX_COLUMN then
          match getDataTypeMatrixNumRows bt with
          | .error msg => throw msg
          | .ok rows =>
            match rest with
            | [] => pure (VarType.basic (getDataTypeFloatVec rows) prec)
            | e2 :: rest2 =>
              if e2.type = some ComponentType.VECTOR_COMPONENT then
                match getDataTypeScalarTypeAsDataType (getDataTypeFloatVec rows) with
                | .error msg => throw msg
                | .ok sc =>
                  if rest2.isEmpty then pure (VarType.basic sc prec)
                  else throw "Error"
              else throw "Error"
        else if e.type = some ComponentType.VECTOR_COMPONENT then
          match getDataTypeScalarTypeAsDataType bt with
          | .error msg => throw msg
          | .ok sc =>
            if rest.isEmpty then pure (VarType.basic sc prec)
            else throw "Error"
        else throw "Error"

/-- `getVarType(type, array)`: validates first and throws `Type is invalid`
on a `false` verdict (a throw inside validation propagates), then re-walks
the path to build the result. -/
def getVarType (type : VarType) (arr : List VarTypeComponent) :
    Except String VarType :=
  match isValidTypePath type arr with
  | .error msg => throw msg
  | .ok valid =>
    if ¬ valid then throw "Type is invalid"
    else getVarTypeAux type arr

/-- `isNum(c)`: matches `/^[0-9]$/`. -/
def isNumChar (c : Char) : Bool :=
  '0' ≤ c && c ≤ '9'

/-- `isAlpha(c)`: matches `/^[a-zA-Z]$/`. -/
def isAlphaChar (c : Char) : Bool :=
  ('a' ≤ c && c ≤ 'z') || ('A' ≤ c && c ≤ 'Z')

/-- `isIdentifierChar(c)`: matches `/^[a-zA-Z0-9_]$/`. -/
def isIdentifierChar (c : Char) : Bool :=
  isAlphaChar c || isNumChar c || c = '_'

/-- `gluVarTypeUtil.Token` enum. -/
inductive Token
  | IDENTIFIER
  | LEFT_BRACKET
  | RIGHT_BRACKET
  | PERIOD
  | NUMBER
  | END
  deriving DecidableEq, Repr

/-- `VarTokenizer` state: the string, the current token and its extent. -/
structure VarTokenizer where
  str : List Char
  token : Token
  tokenStart : Nat
  tokenLen : Nat
  deriving DecidableEq, Repr

/-- The token classification at a position (the body of
`VarTokenizer.advance` after `m_tokenStart` is moved): end of string,
single-character punctuation, a maximal digit run, a maximal identifier run;
any other character throws. -/
def tokenizeAt (str : List Char) (start : Nat) : Except String (Token × Nat) :=
  match str.drop start with
  | [] => pure (Token.END, 1)
  | c :: rest =>
    if c = '[' then pure (Token.LEFT_BRACKET, 1)
    else if c = ']' then pure (Token.RIGHT_BRACKET, 1)
    else if c = '.' then pure (Token.PERIOD, 1)
    else if isNumChar c then
      pure (Token.NUMBER, ((c :: rest).takeWhile isNumChar).length)
    else if isIdentifierChar c then
      pure (Token.IDENTIFIER, ((c :: rest).takeWhile isIdentifierChar).length)
    else throw "Unexpected character"

/-- `VarTokenizer.advance()`. -/
def VarTokenizer.advance (t : VarTokenizer) : Except String VarTokenizer :=
  if t.token = Token.END then throw "No more tokens."
  else
    match tokenizeAt t.str (t.tokenStart + t.tokenLen) with
    | .error msg => throw msg
    | .ok (tok, len) =>
      pure { t with token := tok, tokenStart := t.tokenStart + t.tokenLen,
                    tokenLen := len }

/-- The `VarTokenizer(str)` constructor: start/len 0, then one `advance`
(whose `m_token == END` guard cannot fire on the fresh sentinel). -/
def VarTokenizer.init (s : String) : Except String VarTokenizer :=
  match tokenizeAt s.toList 0 with
  | .error msg => throw msg
  | .ok (tok, len) =>
    pure { str := s.toList, token := tok, tokenStart := 0, tokenLen := len }

/-- `VarTokenizer.getIdentifier()`: the current token's text. -/
def VarTokenizer.getIdentifier (t : VarTokenizer) : String :=
  String.mk ((t.str.drop t.tokenStart).take t.tokenLen)

/-- `VarTokenizer.getNumber()`: `parseInt` of the token text, which for a
NUMBER token is a non-empty digit run. -/
def VarTokenizer.getNumber (t : VarTokenizer) : Int :=
  ((t.str.drop t.tokenStart).take t.tokenLen).foldl
    (fun acc c => acc * 10 + (c.toNat - Char.toNat '0')) (0 : Nat)

/-- `parseVariableName(nameWithPath)`: tokenize and demand an IDENTIFIER. -/
def parseVariableName (nameWithPath : String) : Except String String :=
  match VarTokenizer.init nameWithPath with
  | .error msg => throw msg
  | .ok t =>
    if t.token ≠ Token.IDENTIFIER then throw "Not an identifier."
    else pure t.getIdentifier

/-- First index of a member with the given name (the linear scan of
`parseTypePath`'s PERIOD branch; `none` models `ndx >= size`). -/
def findMemberNdx (members : List (String × VarType)) (memberName : String) :
    Option Nat :=
  members.findIdx? (fun m => m.1 = memberName)

/-- One `[n]` resolution in `parseTypePath` (source lines 683-701): array
element if the current type is an array (bounds-checked against
`getArraySize()` with no unsized-array exemption, so an unsized array's size
of `-1` rejects every index), else matrix column / vector component on a
basic type (bounds-checked), else `Invalid subscript`. -/
def parseSubscript (curType : VarType) (ndx : Int) :
    Except String VarTypeComponent :=
  match curType with
  | .array _ size =>
    if ¬ inBounds ndx 0 size then throw "Error"
    else pure (mkVarTypeComponent ComponentType.ARRAY_ELEMENT ndx)
  | .basic bt _ =>
    if isDataTypeMatrix bt then
      match getDataTypeMatrixNumColumns bt with
      | .error msg => throw msg
      | .ok cols =>
        if ¬ inBounds ndx 0 cols then throw "Error"
        else pure (mkVarTypeComponent ComponentType.MATRIX_COLUMN ndx)
    else if isDataTypeVector bt then
      match getDataTypeScalarSize bt with
      | .error msg => throw msg
      | .ok sz =>
        if ¬ inBounds ndx 0 sz then throw "Error"
        else pure (mkVarTypeComponent ComponentType.VECTOR_COMPONENT ndx)
    else throw "Invalid subscript"
  | .structType _ => throw "Invalid subscript"

/-- The `while (token != END)` loop of `parseTypePath`, with fuel (each
iteration consumes at least one character of the input, so
`length + 1` fuel never runs out). -/
def parseTypePathLoop (type : VarType) :
    Nat → VarTokenizer → List VarTypeComponent →
    Except String (List VarTypeComponent)
  | 0, _, _ => throw "out of fuel"
  | fuel + 1, tk, path =>
    if tk.token = Token.END then pure path
    else
      match getVarType type path with
      | .error msg => throw msg
      | .ok curType =>
        if tk.token = Token.PERIOD then
          match tk.advance with
          | .error msg => throw msg
          | .ok tk1 =>
            if tk1.token ≠ Token.IDENTIFIER then throw "Error"
            else
              match curType with
              | .structType members =>
                match findMemberNdx members tk1.getIdentifier with
                | none => throw "Member not found in type"
                | some ndx =>
                  match tk1.advance with
                  | .error msg => throw msg
                  | .ok tk2 =>
                    parseTypePathLoop type fuel tk2
                      (path ++ [mkVarTypeComponent ComponentType.STRUCT_MEMBER ndx])
              | _ => throw "Invalid field selector"
        else if tk.token = Token.LEFT_BRACKET then
          match tk.advance with
          | .error msg => throw msg
          | .ok tk1 =>
            if tk1.token ≠ Token.NUMBER then throw "Error"
            else
              match parseSubscript curType tk1.getNumber with
              | .error msg => throw msg
              | .ok comp =>
                match tk1.advance with
                | .error msg => throw msg
                | .ok tk2 =>
                  if tk2.token ≠ Token.RIGHT_BRACKET then
                    throw "Expected token RIGHT_BRACKET"
                  else
                    match tk2.advance with
                    | .error msg => throw msg
                    | .ok tk3 => parseTypePathLoop type fuel tk3 (path ++ [comp])
        else throw "Unexpected token"

/-- `parseTypePath(nameWithPath, type)`: skip a leading identifier, then
repeatedly resolve `.name` / `[n]` against the type resolved so far. -/
def parseTypePath (nameWithPath : String) (type : VarType) :
    Except String (List VarTypeComponent) :=
  match VarTokenizer.init nameWithPath with
  | .error msg => throw msg
  | .ok tk0 =>
    match (if tk0.token = Token.IDENTIFIER then tk0.advance else pure tk0) with
    | .error msg => throw msg
    | .ok tk1 => parseTypePathLoop type (nameWithPath.length + 1) tk1 []

/-- `TypeAccessFormat.toString()` (source lines 190-220): renders each path
component.  An array-element step first descends into the element type and
falls through to the `[index]` rendering shared with matrix-column and
vector-component steps; a component whose stored type is `0`
(`STRUCT_MEMBER`) would render as a member name, but the constructor stores
`null` for it, which hits the `default` branch and throws.  The position
counter `i` is also (faithfully to the source) used as the member index. -/
def typeAccessFormatGo (curType : VarType) (l : List VarTypeComponent)
    (i : Nat) : Except String String :=
  match l with
  | [] => pure ""
  | e :: rest =>
    if e.type = some ComponentType.ARRAY_ELEMENT then
      match curType with
      | .array elementType _ =>
        match typeAccessFormatGo elementType rest (i + 1) with
        | .error msg => throw msg
        | .ok s => pure ("[" ++ toString e.index ++ "]" ++ s)
      | _ => throw "Assert failed"
    else if e.type = some ComponentType.MATRIX_COLUMN ∨
            e.type = some ComponentType.VECTOR_COMPONENT then
      match typeAccessFormatGo curType rest (i + 1) with
      | .error msg => throw msg
      | .ok s => pure ("[" ++ toString e.index ++ "]" ++ s)
    else if e.type = some ComponentType.STRUCT_MEMBER then
      match curType with
      | .structType members =>
        match structGetMember members i with
        | some m =>
          match typeAccessFormatGo m.2 rest (i + 1) with
          | .error msg => throw msg
          | .ok s => pure ("." ++ m.1 ++ s)
        | none => throw "TypeError: member is undefined"
      | _ => throw "Assert failed"
    else throw "Unrecognized type"

/-- `new TypeAccessFormat(type, path).toString()`. -/
def typeAccessFormatToString (type : VarType) (path : List VarTypeComponent) :
    Except String String :=
  typeAccessFormatGo type path 0

/-- `VectorTypeIterator.isExpanded`: basic scalar-or-vector type. -/
def vectorTypeIsExpanded (type : VarType) : Bool :=
  match type with
  | .basic bt _ => isDataTypeScalarOrVector bt
  | _ => false

/-- `BasicTypeIterator.isExpanded`: any basic type. -/
def basicTypeIsExpanded (type : VarType) : Bool :=
  match type with
  | .basic _ _ => true
  | _ => false

/-- The `for (;;)` loop of `SubTypeIterator.findNext` (source lines
367-397): resolve the current path (exceptions propagate), stop when
expanded, otherwise push a fresh component with index 0 for the child kind
(through the quirky constructor, so the stored index is 4).  Fuel bounds the
descent; every concrete evaluation below uses enough. -/
def findNextLoop (isExpanded : VarType → Bool) (root : VarType) :
    Nat → List VarTypeComponent → Except String (List VarTypeComponent)
  | 0, _ => throw "out of fuel"
  | fuel + 1, path =>
    match getVarType root path with
    | .error msg => throw msg
    | .ok curType =>
      if isExpanded curType then pure path
      else
        match curType with
        | .basic bt _ =>
          if isDataTypeMatrix bt then
            findNextLoop isExpanded root fuel
              (path ++ [mkVarTypeComponent ComponentType.MATRIX_COLUMN 0])
          else if isDataTypeVector bt then
            findNextLoop isExpanded root fuel
              (path ++ [mkVarTypeComponent ComponentType.VECTOR_COMPONENT 0])
          else throw "Cant expand scalars - isExpanded() is buggy."
        | .array _ _ =>
          findNextLoop isExpanded root fuel
            (path ++ [mkVarTypeComponent ComponentType.ARRAY_ELEMENT 0])
        | .structType _ =>
          findNextLoop isExpanded root fuel
            (path ++ [mkVarTypeComponent ComponentType.STRUCT_MEMBER 0])

/-- `curComp.index += 1` on the last path component (the increment at the
top of `findNext`; identity on the empty path). -/
def bumpLastIndex (path : List VarTypeComponent) : List VarTypeComponent :=
  match path with
  | [] => []
  | [e] => [{ e with index := e.index + 1 }]
  | e :: rest => e :: bumpLastIndex rest

/-- `SubTypeIterator.findNext()`: bump the last component, then search. -/
def findNext (isExpanded : VarType → Bool) (root : VarType) (fuel : Nat)
    (path : List VarTypeComponent) : Except String (List VarTypeComponent) :=
  findNextLoop isExpanded root fuel (bumpLastIndex path)

/-- `SubTypeIterator.removeTraversed()` on the reversed path (head = last
component).  Each round inspects the last component against the type
resolved by the path without it; mismatched shapes throw; a component with
further siblings stops the popping; an exhausted one is popped.  A component
whose stored type is `null` matches no branch and is popped unconditionally
(faithful to the if/else-if chain falling through to `pop()`). -/
def removeTraversedRev (root : VarType) :
    List VarTypeComponent → Except String (List VarTypeComponent)
  | [] => pure []
  | e :: revRest =>
    match getVarType root revRest.reverse with
    | .error msg => throw msg
    | .ok parentType =>
      if e.type = some ComponentType.MATRIX_COLUMN then
        match parentType.getBasicTypeE with
        | .error msg => throw msg
        | .ok bt =>
          if ¬ isDataTypeMatrix bt then throw "Isnt a matrix."
          else
            match getDataTypeMatrixNumColumns bt with
            | .error msg => throw msg
            | .ok cols =>
              if e.index + 1 < cols then pure (e :: revRest)
              else removeTraversedRev root revRest
      else if e.type = some ComponentType.VECTOR_COMPONENT then
        match parentType.getBasicTypeE with
        | .error msg => throw msg
        | .ok bt =>
          if ¬ isDataTypeVector bt then throw "Isnt a vector."
          else
            match getDataTypeScalarSize bt with
            | .error msg => throw msg
            | .ok sz =>
              if e.index + 1 < sz then pure (e :: revRest)
              else removeTraversedRev root revRest
      else if e.type = some ComponentType.ARRAY_ELEMENT then
        match parentType with
        | .array _ size =>
          if e.index + 1 < size then pure (e :: revRest)
          else removeTraversedRev root revRest
        | _ => throw "Isnt an array."
      else if e.type = some ComponentType.STRUCT_MEMBER then
        match parentType with
        | .structType members =>
          if e.index + 1 < (members.length : Int) then pure (e :: revRest)
          else removeTraversedRev root revRest
        | _ => throw "Isnt a struct."
      else removeTraversedRev root revRest

/-- `removeTraversed` on the path in its stored order. -/
def removeTraversed (root : VarType) (path : List VarTypeComponent) :
    Except String (List VarTypeComponent) :=
  match removeTraversedRev root path.reverse with
  | .error msg => throw msg
  | .ok rev => pure rev.reverse

/-- `SubTypeIterator.next()`: returns the next path, or `none` once the
iteration ends (the source signals this by nulling `m_type`). -/
def iterNext (isExpanded : VarType → Bool) (root : VarType) (fuel : Nat)
    (path : List VarTypeComponent) :
    Except String (Option (List VarTypeComponent)) :=
  if path.isEmpty then
    match getVarType root path with
    | .error msg => throw msg
    | .ok t =>
      if ¬ isExpanded t then throw "First type was already expanded."
      else pure none
  else
    match removeTraversed root path with
    | .error msg => throw msg
    | .ok p1 =>
      if p1.isEmpty then pure none
      else
        match findNext isExpanded root fuel p1 with
        | .error msg => throw msg
        | .ok p2 => pure (some p2)

/-- The constructor's initial `findNext` from the empty path. -/
def iterFirst (isExpanded : VarType → Bool) (root : VarType) (fuel : Nat) :
    Except String (List VarTypeComponent) :=
  findNextLoop isExpanded root fuel []

/-- All paths produced by a full
`for (i = new ...Iterator(type); !i.end(); i.next())` run, with fuel
bounding the number of iterations. -/
def iterCollect (isExpanded : VarType → Bool) (root : VarType) (fuel : Nat) :
    Nat → List VarTypeComponent →
    Except String (List (List VarTypeComponent))
  | 0, _ => throw "out of fuel"
  | steps + 1, path =>
    match iterNext isExpanded root fuel path with
    | .error msg => throw msg
    | .ok none => pure [path]
    | .ok (some nxt) =>
      match iterCollect isExpanded root fuel steps nxt with
      | .error msg => throw msg
      | .ok rest => pure (path :: rest)

/-- Every terminal path enumerated by `VectorTypeIterator` over a type. -/
def vectorTypeIteratorPaths (root : VarType) (fuel : Nat) :
    Except String (List (List VarTypeComponent)) :=
  match iterFirst vectorTypeIsExpanded root fuel with
  | .error msg => throw msg
  | .ok first => iterCollect vectorTypeIsExpanded root fuel fuel first

/-- `gluDrawUtil.primitiveType` enum (PATCHES is declared but every
topology `switch` in the transform-feedback module throws on it). -/
inductive PrimitiveType
  | TRIANGLES
  | TRIANGLE_STRIP
  | TRIANGLE_FAN
  | LINES
  | LINE_STRIP
  | LINE_LOOP
  | POINTS
  | PATCHES
  deriving DecidableEq, Repr, Fintype

/-- `getTransformFeedbackOutputCount(primitiveType, numElements)`.  All the
arithmetic here (`%`, `Math.max`, `*`, `-`) is exact on integers, so the
JavaScript numbers are modelled as `Int`; JavaScript `%` truncates toward
zero, i.e. `Int.tmod`. -/
def getTransformFeedbackOutputCount (primitiveType : PrimitiveType)
    (numElements : Int) : Except String Int :=
  match primitiveType with
  | .TRIANGLES => pure (numElements - Int.tmod numElements 3)
  | .TRIANGLE_STRIP => pure (max 0 (numElements - 2) * 3)
  | .TRIANGLE_FAN => pure (max 0 (numElements - 2) * 3)
  | .LINES => pure (numElements - Int.tmod numElements 2)
  | .LINE_STRIP => pure (max 0 (numElements - 1) * 2)
  | .LINE_LOOP => pure (if numElements > 1 then numElements * 2 else 0)
  | .POINTS => pure numElements
  | .PATCHES => throw "Unrecognized primitiveType"

/-- JavaScript truncation toward zero, on exact rationals. -/
def jsTrunc (q : ℚ) : Int :=
  if 0 ≤ q then ⌊q⌋ else ⌈q⌉

/-- The JavaScript `%` operator (`a - b * trunc(a / b)`), on exact
rationals.  Every value it is applied to below is non-negative, where
binary64 `%` agrees with the exact computation whenever `a` and `b` are
exactly representable and small, as in every fact proved here. -/
def jsRem (a b : ℚ) : ℚ :=
  a - b * (jsTrunc (a / b) : ℚ)

/-- `getTransformFeedbackPrimitiveCount(gl, primitiveType, numElements)`.
The `TRIANGLES` and `LINES` formulas divide with JavaScript `/`, which is
*float* division (`numElements - numElements / 3`), so the result is
modelled as an exact rational; binary64 evaluation rounds `N - N/3` to a
value within one part in 2^50 of the rational one for the inputs considered
here, which never affects the comparisons proved below. -/
def getTransformFeedbackPrimitiveCount (primitiveType : PrimitiveType)
    (numElements : ℚ) : Except String ℚ :=
  match primitiveType with
  | .TRIANGLES => pure (numElements - numElements / 3)
  | .TRIANGLE_STRIP => pure (max 0 (numElements - 2))
  | .TRIANGLE_FAN => pure (max 0 (numElements - 2))
  | .LINES => pure (numElements - numElements / 2)
  | .LINE_STRIP => pure (max 0 (numElements - 1))
  | .LINE_LOOP => pure (if numElements > 1 then numElements else 0)
  | .POINTS => pure numElements
  | .PATCHES => throw "Unrecognized primitiveType"

/-- `getAttributeIndex(gl, primitiveType, numInputs, outNdx)`.  The strip,
fan, line-strip and line-loop branches divide with JavaScript float `/`
(`outNdx / 3`, `outNdx / 2`) and apply `%` to the resulting fractions, so
again the values are modelled as exact rationals. -/
def getAttributeIndex (primitiveType : PrimitiveType) (numInputs outNdx : ℚ) :
    Except String ℚ :=
  match primitiveType with
  | .TRIANGLES => pure outNdx
  | .LINES => pure outNdx
  | .POINTS => pure outNdx
  | .TRIANGLE_STRIP =>
    pure (if jsRem (outNdx / 3) 2 ≠ 0 ∧ jsRem outNdx 3 < 2
          then outNdx / 3 + 1 - jsRem outNdx 3
          else outNdx / 3 + jsRem outNdx 3)
  | .TRIANGLE_FAN =>
    pure (if jsRem outNdx 3 ≠ 0 then outNdx / 3 + jsRem outNdx 3 else 0)
  | .LINE_STRIP => pure (outNdx / 2 + jsRem outNdx 2)
  | .LINE_LOOP =>
    pure (if outNdx / 2 + jsRem outNdx 2 < numInputs
          then outNdx / 2 + jsRem outNdx 2 else 0)
  | .PATCHES => throw "Unrecognized primitiveType"

/-- A `DrawCall`: element count and whether transform feedback captures. -/
structure DrawCall where
  numElements : Int
  transformFeedbackEnabled : Bool
  deriving DecidableEq, Repr

/-- `computeTransformFeedbackPrimitiveCount(gl, primitiveType, array)`:
sum of `getTransformFeedbackPrimitiveCount` over capture-enabled calls. -/
def computeTransformFeedbackPrimitiveCount (primitiveType : PrimitiveType)
    (calls : List DrawCall) : Except String ℚ :=
  match calls with
  | [] => pure 0
  | call :: rest =>
    match computeTransformFeedbackPrimitiveCount primitiveType rest with
    | .error msg => throw msg
    | .ok acc =>
      if call.transformFeedbackEnabled then
        match getTransformFeedbackPrimitiveCount primitiveType
            (call.numElements : ℚ) with
        | .error msg => throw msg
        | .ok c => pure (c + acc)
      else pure acc

/-- The `elemCount4` draw-call script: a single call of 4 vertices with
transform feedback enabled. -/
def elemCount4 : List DrawCall :=
  [{ numElements := 4, transformFeedbackEnabled := true }]

/-- `interpolation` enum of the transform-feedback module. -/
inductive Interpolation
  | SMOOTH
  | FLAT
  | CENTROID
  deriving DecidableEq, Repr

/-- A `Varying`: name, type, interpolation. -/
structure Varying where
  name : String
  type : VarType
  interp : Interpolation

/-- An `Attribute`: name, type, byte offset into the input record. -/
structure Attribute where
  name : String
  type : VarType
  offset : Int
  deriving Repr

/-- `getAttributeName(varyingName, path)`: `a_` plus the varying name with
a leading `v_` stripped, plus `_m` / `_e` / `_c` / `_s` and the stored index
for each component; a `null`-typed component hits the `default` and throws. -/
def getAttributeName (varyingName : String) (path : List VarTypeComponent) :
    Except String String :=
  path.foldlM
    (fun acc e =>
      match e.type with
      | some ComponentType.STRUCT_MEMBER => pure (acc ++ "_m" ++ toString e.index)
      | some ComponentType.ARRAY_ELEMENT => pure (acc ++ "_e" ++ toString e.index)
      | some ComponentType.MATRIX_COLUMN => pure (acc ++ "_c" ++ toString e.index)
      | some ComponentType.VECTOR_COMPONENT => pure (acc ++ "_s" ++ toString e.index)
      | none => throw "invalid type in the component path.")
    ("a_" ++ (if varyingName.startsWith "v_" then varyingName.drop 2
              else varyingName))

/-- The inner loop of `computeInputLayout` for one varying: one attribute
per vector-level terminal path, advancing the running offset by
`getDataTypeScalarSize(type.getBasicType()) * 4` bytes. -/
def layoutVaryingPaths (v : Varying) :
    List (List VarTypeComponent) → Int →
    Except String (List Attribute × Int)
  | [], stride => pure ([], stride)
  | p :: rest, stride => do
    let type ← getVarType v.type p
    let name ← getAttributeName v.name p
    let bt ← type.getBasicTypeE
    let sz ← getDataTypeScalarSize bt
    let (attrs, stride2) ← layoutVaryingPaths v rest (stride + sz * 4)
    pure ({ name := name, type := type, offset := stride } :: attrs, stride2)

/-- The outer loop of `computeInputLayout` across the varying list. -/
def layoutVaryings (fuel : Nat) :
    List Varying → Int → Except String (List Attribute × Int)
  | [], stride => pure ([], stride)
  | v :: rest, stride => do
    let paths ← vectorTypeIteratorPaths v.type fuel
    let (attrs1, stride1) ← layoutVaryingPaths v paths stride
    let (attrs2, stride2) ← layoutVaryings fuel rest stride1
    pure (attrs1 ++ attrs2, stride2)

/-- `computeInputLayout(attributes, varyings, usePointSize)`: position
first (highp float vec4, 16 bytes at offset 0), then point size if used
(highp float, 4 bytes), then one attribute per vector-level terminal
sub-path of each varying in iteration order; returns the attribute list and
the final input stride. -/
def computeInputLayout (varyings : List Varying) (usePointSize : Bool)
    (fuel : Nat) : Except String (List Attribute × Int) := do
  let posAttr : Attribute :=
    { name := "a_position",
      type := VarType.basic DataType.FLOAT_VEC4 Precision.PRECISION_HIGHP,
      offset := 0 }
  let base : List Attribute :=
    if usePointSize then
      [posAttr,
       { name := "a_pointSize",
         type := VarType.basic DataType.FLOAT Precision.PRECISION_HIGHP,
         offset := 16 }]
    else [posAttr]
  let stride0 : Int := if usePointSize then 20 else 16
  let (attrs, stride) ← layoutVaryings fuel varyings stride0
  pure (base ++ attrs, stride)

/-- The per-component comparison at the heart of
`compareTransformFeedbackOutput` (source lines 824-857), abstracted over the
values read back from the buffers: for scalar-type string `'float'` the
captured component passes iff `Math.abs(input - output) < 0.1`, with one
identical branch per precision tier (`DE_ASSERT(false)` on the sentinel);
for any other scalar type the 32-bit buffer words must be equal.  Float
values are modelled as exact rationals and the literal `0.1` as `1/10`;
the source compares binary64 values, and the branch structure — one and the
same threshold for all three tiers, exact word equality otherwise — is
independent of that representation. -/
def compareOutputComponent (scalarType : String) (precision : Precision)
    (inVal outVal : ℚ) (inWord outWord : Nat) : Except String Bool :=
  if scalarType = "float" then
    match precision with
    | .PRECISION_HIGHP => pure (decide (|inVal - outVal| < 1/10))
    | .PRECISION_MEDIUMP => pure (decide (|inVal - outVal| < 1/10))
    | .PRECISION_LOWP => pure (decide (|inVal - outVal| < 1/10))
    | .PRECISION_LAST => throw "Assert failed"
  else pure (inWord == outWord)

/-- A `ProgramSpec` as used by `hasArraysInTFVaryings`: declared varyings
and captured-varying strings (the struct list the class also carries is
irrelevant to the functions modelled here). -/
structure ProgramSpec where
  varyings : List Varying
  transformFeedbackVaryings : List String

/-- `findAttributeNameEquals(array, name)` on the varying list: the first
entry with that exact name, if any. -/
def findAttributeNameEquals (varyings : List Varying) (name : String) :
    Option Varying :=
  varyings.find? (fun v => v.name = name)

/-- The loop of `hasArraysInTFVaryings`. -/
def hasArraysInTFVaryingsGo (varyings : List Varying) :
    List String → Except String Bool
  | [] => pure false
  | tfVar :: rest =>
    match parseVariableName tfVar with
    | .error msg => throw msg
    | .ok varName =>
      if (findAttributeNameEquals varyings varName).isSome then pure true
      else hasArraysInTFVaryingsGo varyings rest

/-- `hasArraysInTFVaryings(spec)`: true as soon as the leading identifier of
some captured string names a declared varying — the varying's type is never
inspected. -/
def hasArraysInTFVaryings (spec : ProgramSpec) : Except String Bool :=
  hasArraysInTFVaryingsGo spec.varyings spec.transformFeedbackVaryings


/-- `true` iff an `Except` computation threw. -/
def isThrow {ε α : Type} : Except ε α → Bool
  | .error _ => true
  | .ok _ => false

/-- Fixture: `mat2` basic type (highp). -/
def mat2Type : VarType :=
  VarType.basic DataType.FLOAT_MAT2 Precision.PRECISION_HIGHP

/-- Fixture: `vec4` basic type (highp). -/
def vec4Type : VarType :=
  VarType.basic DataType.FLOAT_VEC4 Precision.PRECISION_HIGHP

/-- Fixture: `vec2` basic type (highp). -/
def vec2Type : VarType :=
  VarType.basic DataType.FLOAT_VEC2 Precision.PRECISION_HIGHP

/-- Fixture: unsized array of highp float (array size `UNSIZED_ARRAY`). -/
def unsizedFloatArray : VarType :=
  VarType.array (VarType.basic DataType.FLOAT Precision.PRECISION_HIGHP)
    UNSIZED_ARRAY

/-- Fixture: `float[3]` (highp), the `v_varA` type of `BasicArrayCase`. -/
def floatArr3Type : VarType :=
  VarType.array (VarType.basic DataType.FLOAT Precision.PRECISION_HIGHP) 3

/-- Fixture: the `v_varA` varying of `BasicArrayCase` (float array). -/
def arrayVaryingA : Varying :=
  { name := "v_varA", type := floatArr3Type, interp := Interpolation.SMOOTH }

/-- Fixture: a spec capturing `v_varA[1]` with `v_varA` declared as a plain
(non-array) float varying. -/
def scalarCaptureSpec : ProgramSpec :=
  { varyings := [{ name := "v_varA",
                   type := VarType.basic DataType.FLOAT Precision.PRECISION_HIGHP,
                   interp := Interpolation.SMOOTH }],
    transformFeedbackVaryings := ["v_varA[1]"] }

/-- Fixture: a matrix-column component with raw index 0. -/
def colComp : VarTypeComponent :=
  { type := some ComponentType.MATRIX_COLUMN, index := 0 }

/-- Fixture: a vector-component component with index 1. -/
def vecComp : VarTypeComponent :=
  { type := some ComponentType.VECTOR_COMPONENT, index := 1 }

/-- C3: for every non-negative `N`, `getTransformFeedbackOutputCount`
returns `N - N mod 3` for TRIANGLES; `max(0, N-2)*3` for TRIANGLE_STRIP and
TRIANGLE_FAN; `N - N mod 2` for LINES; `max(0, N-1)*2` for LINE_STRIP; `N*2`
when `N > 1` and `0` otherwise for LINE_LOOP; and `N` for POINTS. -/
theorem c3_transform_feedback_output_count (N : Int) (hN : 0 ≤ N) :
    getTransformFeedbackOutputCount PrimitiveType.TRIANGLES N =
      .ok (N - N % 3) ∧
    getTransformFeedbackOutputCount PrimitiveType.TRIANGLE_STRIP N =
      .ok (max 0 (N - 2) * 3) ∧
    getTransformFeedbackOutputCount PrimitiveType.TRIANGLE_FAN N =
      .ok (max 0 (N - 2) * 3) ∧
    getTransformFeedbackOutputCount PrimitiveType.LINES N =
      .ok (N - N % 2) ∧
    getTransformFeedbackOutputCount PrimitiveType.LINE_STRIP N =
      .ok (max 0 (N - 1) * 2) ∧
    getTransformFeedbackOutputCount PrimitiveType.LINE_LOOP N =
      .ok (if 1 < N then N * 2 else 0) ∧
    getTransformFeedbackOutputCount PrimitiveType.POINTS N = .ok N := by
  refine ⟨?_, rfl, rfl, ?_, rfl, rfl, rfl⟩
  · simp [getTransformFeedbackOutputCount, pure, Except.pure,
      Int.tmod_eq_emod hN (by norm_num : (0 : Int) ≤ 3)]
  · simp [getTransformFeedbackOutputCount, pure, Except.pure,
      Int.tmod_eq_emod hN (by norm_num : (0 : Int) ≤ 2)]

/-- Witness for C3 at `N = 5`. -/
theorem c3_transform_feedback_output_count_witness :
    (0 : Int) ≤ 5 ∧
    (getTransformFeedbackOutputCount PrimitiveType.TRIANGLES 5 =
       .ok (5 - 5 % 3) ∧
     getTransformFeedbackOutputCount PrimitiveType.TRIANGLE_STRIP 5 =
       .ok (max 0 (5 - 2) * 3) ∧
     getTransformFeedbackOutputCount PrimitiveType.TRIANGLE_FAN 5 =
       .ok (max 0 (5 - 2) * 3) ∧
     getTransformFeedbackOutputCount PrimitiveType.LINES 5 =
       .ok (5 - 5 % 2) ∧
     getTransformFeedbackOutputCount PrimitiveType.LINE_STRIP 5 =
       .ok (max 0 (5 - 1) * 2) ∧
     getTransformFeedbackOutputCount PrimitiveType.LINE_LOOP 5 =
       .ok (if 1 < (5 : Int) then 5 * 2 else 0) ∧
     getTransformFeedbackOutputCount PrimitiveType.POINTS 5 = .ok 5) :=
  ⟨by norm_num, c3_transform_feedback_output_count 5 (by norm_num)⟩

/-- C4 fails on the code: for TRIANGLE_STRIP with `N = 5` and output slot 1
the claimed table says input index 1, but `getAttributeIndex` divides with
JavaScript float `/`, so `triNdx = 1/3` is fractional, the parity test
`1/3 % 2 != 0` is true, and the function returns `1/3 + 1 - 1 = 1/3`. -/
theorem c4_attribute_index_fractional :
    getAttributeIndex PrimitiveType.TRIANGLE_STRIP 5 1 = .ok (1 / 3 : ℚ) ∧
    ((1 : ℚ) / 3 ≠ 1) := by
  constructor
  · simp only [getAttributeIndex, jsRem, jsTrunc]
    norm_num
    rfl
  · norm_num

/-- C5: the output count for `elemCount4` under TRIANGLES is 3 as claimed,
but the expected primitive count is computed as `4 - 4/3 = 8/3` (JavaScript
float division), not the claimed 1. -/
theorem c5_elemcount4_primitive_count :
    getTransformFeedbackOutputCount PrimitiveType.TRIANGLES 4 = .ok 3 ∧
    computeTransformFeedbackPrimitiveCount PrimitiveType.TRIANGLES elemCount4 =
      .ok (8 / 3 : ℚ) ∧
    ((8 : ℚ) / 3 ≠ 1) := by
  refine ⟨rfl, ?_, by norm_num⟩
  simp only [computeTransformFeedbackPrimitiveCount,
    getTransformFeedbackPrimitiveCount, elemCount4, pure, Except.pure]
  norm_num

/-- C6 fails on the code: parsing `v[2]` against an unsized float array
throws (the parser bounds-checks against `getArraySize() = -1` with no
unsized exemption), even though `isValidTypePath` accepts the very
array-element component the parser would have pushed. -/
theorem c6_unsized_array_subscript_rejected :
    parseTypePath "v[2]" unsizedFloatArray = .error "Error" ∧
    isValidTypePath unsizedFloatArray
      [mkVarTypeComponent ComponentType.ARRAY_ELEMENT 2] = .ok true :=
  ⟨rfl, rfl⟩

/-- C8: a float component passes iff `|input - output| < 0.1`, with the same
threshold in all three precision tiers, and an int/uint component passes iff
the 32-bit words are equal. -/
theorem c8_comparison_threshold (p : Precision)
    (hp : p ≠ Precision.PRECISION_LAST) (inVal outVal : ℚ)
    (inWord outWord : Nat) :
    (compareOutputComponent "float" p inVal outVal inWord outWord = .ok true ↔
       |inVal - outVal| < 1 / 10) ∧
    (compareOutputComponent "int" p inVal outVal inWord outWord = .ok true ↔
       inWord = outWord) ∧
    (compareOutputComponent "uint" p inVal outVal inWord outWord = .ok true ↔
       inWord = outWord) := by
  cases p <;>
    simp_all [compareOutputComponent, pure, Except.pure, Except.ok.injEq,
      decide_eq_true_eq, beq_iff_eq]

/-- Witness for C8 at highp with `|0 - 1/20| < 1/10` and equal words. -/
theorem c8_comparison_threshold_witness :
    Precision.PRECISION_HIGHP ≠ Precision.PRECISION_LAST ∧
    ((compareOutputComponent "float" Precision.PRECISION_HIGHP 0 (1 / 20) 3 3 =
        .ok true ↔ |(0 : ℚ) - 1 / 20| < 1 / 10) ∧
     (compareOutputComponent "int" Precision.PRECISION_HIGHP 0 (1 / 20) 3 3 =
        .ok true ↔ (3 : Nat) = 3) ∧
     (compareOutputComponent "uint" Precision.PRECISION_HIGHP 0 (1 / 20) 3 3 =
        .ok true ↔ (3 : Nat) = 3)) :=
  ⟨by decide, c8_comparison_threshold Precision.PRECISION_HIGHP (by decide)
    0 (1 / 20) 3 3⟩

/-- C9: the constructor maps index 0 to `ComponentType.length = 4` and type
`STRUCT_MEMBER` to `null`; consequently `parseTypePath` stores index 4 for
`v[0]` on a vec4, and the vector-level iterator's first path for a `mat2`
is a matrix-column component with index 4. -/
theorem c9_component_constructor_quirk :
    (∀ t : ComponentType, (mkVarTypeComponent t 0).index = 4) ∧
    (∀ i : Int,
       (mkVarTypeComponent ComponentType.STRUCT_MEMBER i).type = none) ∧
    parseTypePath "v[0]" vec4Type =
      .ok [{ type := some ComponentType.VECTOR_COMPONENT, index := 4 }] ∧
    iterFirst vectorTypeIsExpanded mat2Type 100 =
      .ok [{ type := some ComponentType.MATRIX_COLUMN, index := 4 }] := by
  refine ⟨fun t => rfl, fun i => rfl, rfl, rfl⟩

/-- C2 fails on the code: over a `mat2` the vector-level iterator enumerates
exactly one terminal path, a matrix-column component whose stored index is 4
(the constructor quirk of C9); validation accepts it (matrix-column indices
are never bounds-checked), it renders as `[4]`, but re-parsing `v[4]`
bounds-checks 4 against the 2 columns and throws, so the round trip fails. -/
theorem c2_roundtrip_fails_on_mat2 :
    vectorTypeIteratorPaths mat2Type 100 =
      .ok [[{ type := some ComponentType.MATRIX_COLUMN, index := 4 }]] ∧
    isValidTypePath mat2Type
      [{ type := some ComponentType.MATRIX_COLUMN, index := 4 }] = .ok true ∧
    typeAccessFormatToString mat2Type
      [{ type := some ComponentType.MATRIX_COLUMN, index := 4 }] = .ok "[4]" ∧
    parseTypePath "v[4]" mat2Type = .error "Error" :=
  ⟨rfl, rfl, rfl, rfl⟩

/-- C7 fails on the code: with no varyings the layout is the claimed
position-only prefix (vec4, offset 0, stride 16), but for the repository's
own `BasicArrayCase` varying `float[3]` the iterator pushes an array-element
component with stored index 4, validation rejects index 4 against size 3,
and `computeInputLayout` throws instead of producing a layout. -/
theorem c7_input_layout_throws_on_array_varying :
    computeInputLayout [] false 100 =
      .ok ([{ name := "a_position",
              type := VarType.basic DataType.FLOAT_VEC4
                        Precision.PRECISION_HIGHP,
              offset := 0 }], 16) ∧
    computeInputLayout [arrayVaryingA] false 100 =
      .error "Type is invalid" :=
  ⟨rfl, rfl⟩

/-- `findAttributeNameEquals` finds something iff a varying carries the
name. -/
theorem findAttributeNameEquals_isSome (varyings : List Varying) (n : String) :
    (findAttributeNameEquals varyings n).isSome = true ↔
      ∃ v ∈ varyings, v.name = n := by
  simp [findAttributeNameEquals, List.find?_isSome]

/-- C10: `hasArraysInTFVaryings` returns true iff the leading identifier of
some captured string equals the name of some declared varying — the
varying's type (array or not) is never consulted.  The hypothesis rules out
captured strings whose leading token is not an identifier, on which the
parse inside the loop would throw. -/
theorem c10_has_arrays_is_name_match (spec : ProgramSpec)
    (h : ∀ s ∈ spec.transformFeedbackVaryings,
           isThrow (parseVariableName s) = false) :
    (hasArraysInTFVaryings spec = .ok true ↔
      ∃ s ∈ spec.transformFeedbackVaryings, ∃ n, parseVariableName s = .ok n ∧
        ∃ v ∈ spec.varyings, v.name = n) := by
  obtain ⟨vs, tfs⟩ := spec
  simp only [hasArraysInTFVaryings] at *
  induction tfs with
  | nil => simp [hasArraysInTFVaryingsGo, pure, Except.pure]
  | cons s rest ih =>
    have hs : isThrow (parseVariableName s) = false := h s (by simp)
    have hrest : ∀ x ∈ rest, isThrow (parseVariableName x) = false :=
      fun x hx => h x (by simp [hx])
    cases hp : parseVariableName s with
    | error m => rw [hp] at hs; simp [isThrow] at hs
    | ok n =>
      by_cases hf : (findAttributeNameEquals vs n).isSome = true
      · have hex := (findAttributeNameEquals_isSome vs n).mp hf
        have lhs : hasArraysInTFVaryingsGo vs (s :: rest) = .ok true := by
          simp [hasArraysInTFVaryingsGo, hp, hf, pure, Except.pure]
        constructor
        · intro _
          exact ⟨s, by simp, n, hp, hex⟩
        · intro _
          exact lhs
      · have hstep : hasArraysInTFVaryingsGo vs (s :: rest) =
            hasArraysInTFVaryingsGo vs rest := by
          simp [hasArraysInTFVaryingsGo, hp, hf]
        have hnone : ¬ ∃ v ∈ vs, v.name = n :=
          fun hx => hf ((findAttributeNameEquals_isSome vs n).mpr hx)
        rw [hstep, ih hrest]
        constructor
        · rintro ⟨s2, hs2, rest2⟩
          exact ⟨s2, List.mem_cons_of_mem _ hs2, rest2⟩
        · rintro ⟨s2, hs2, n2, hn2, hv2⟩
          rcases List.mem_cons.mp hs2 with hcase | hcase
          · subst hcase
            rw [hp] at hn2
            cases hn2
            exact absurd hv2 hnone
          · exact ⟨s2, hcase, n2, hn2, hv2⟩

/-- Witness for C10: `v_varA[1]` is captured and `v_varA` is declared as a
plain float varying, so the function returns true with no array present. -/
theorem c10_has_arrays_is_name_match_witness :
    (∀ s ∈ scalarCaptureSpec.transformFeedbackVaryings,
       isThrow (parseVariableName s) = false) ∧
    (hasArraysInTFVaryings scalarCaptureSpec = .ok true ↔
      ∃ s ∈ scalarCaptureSpec.transformFeedbackVaryings,
        ∃ n, parseVariableName s = .ok n ∧
          ∃ v ∈ scalarCaptureSpec.varyings, v.name = n) :=
  ⟨fun s hs => by
      rw [List.mem_singleton.mp hs]
      rfl,
   c10_has_arrays_is_name_match scalarCaptureSpec
     (fun s hs => by
        rw [List.mem_singleton.mp hs]
        rfl)⟩

/-- Every matrix type has a row count, and the float vector built from it is
a genuine vector whose scalar type is FLOAT. -/
theorem rows_of_matrix :
    ∀ bt, isDataTypeMatrix bt = true →
      ∃ r, getDataTypeMatrixNumRows bt = .ok r ∧
        isDataTypeVector (getDataTypeFloatVec r) = true ∧
        getDataTypeScalarTypeAsDataType (getDataTypeFloatVec r) =
          .ok DataType.FLOAT := by
  intro bt h
  cases bt
  all_goals first
    | exact absurd h (by decide)
    | exact ⟨_, rfl, by decide, rfl⟩

/-- Every vector type has a scalar component type. -/
theorem scalar_of_vector :
    ∀ bt, isDataTypeVector bt = true →
      ∃ sc, getDataTypeScalarTypeAsDataType bt = .ok sc := by
  intro bt h
  cases bt
  all_goals first
    | exact absurd h (by decide)
    | exact ⟨_, rfl⟩

/-- An in-bounds struct-member index yields a member. -/
theorem structGetMember_of_inBounds (members : List (String × VarType))
    (i : Int) (h : inBounds i 0 members.length = true) :
    ∃ m, structGetMember members i = some m := by
  simp only [inBounds, Bool.and_eq_true, decide_eq_true_eq] at h
  obtain ⟨h0, hlt⟩ := h
  have hn : i.toNat < members.length := by omega
  simp only [structGetMember, if_pos h0]
  exact ⟨_, List.get?_eq_get hn⟩

theorem validAux_imp_getAux_ok :
    ∀ (l : List VarTypeComponent) (t : VarType),
      isValidTypePathAux t l = .ok true →
        ∃ r, getVarTypeAux t l = .ok r := by
  intro l
  induction l with
  | nil => intro t _; exact ⟨t, rfl⟩
  | cons e rest ih =>
    intro t h
    by_cases hs : e.type = some ComponentType.STRUCT_MEMBER
    · cases t with
      | structType members =>
        simp only [isValidTypePathAux, hs, if_pos] at h
        by_cases hb : inBounds e.index 0 (members.length : Int) = true
        · simp only [hb, not_true, if_neg, if_false] at h
          obtain ⟨m, hm⟩ := structGetMember_of_inBounds members e.index hb
          rw [hm] at h
          obtain ⟨r, hr⟩ := ih m.2 h
          refine ⟨r, ?_⟩
          simp only [getVarTypeAux, hs, if_pos, hm]
          exact hr
        · simp only [hb, not_false_iff, if_pos, pure, Except.pure] at h
          simp at h
      | basic bt prec =>
        simp only [isValidTypePathAux, hs, if_pos, pure, Except.pure] at h
        simp at h
      | array elementType size =>
        simp only [isValidTypePathAux, hs, if_pos, pure, Except.pure] at h
        simp at h
    · by_cases ha : e.type = some ComponentType.ARRAY_ELEMENT
      · cases t with
        | array elementType size =>
          simp only [isValidTypePathAux, hs, ha, if_neg, if_pos] at h
          have hrec : isValidTypePathAux elementType rest = .ok true := by
            by_cases hu : size = UNSIZED_ARRAY
            · simpa [hu] using h
            · by_cases hb : inBounds e.index 0 size = true
              · simpa [hu, hb] using h
              · simp [hu, hb, pure, Except.pure] at h
          obtain ⟨r, hr⟩ := ih elementType hrec
          refine ⟨r, ?_⟩
          simp only [getVarTypeAux, hs, ha, if_neg, if_pos]
          exact hr
        | basic bt prec =>
          simp only [isValidTypePathAux, hs, ha, pure, Except.pure] at h
          simp at h
        | structType members =>
          simp only [isValidTypePathAux, hs, ha, pure, Except.pure] at h
          simp at h
      · simp only [isValidTypePathAux, hs, ha, if_neg] at h
        by_cases hmv : e.type = some ComponentType.MATRIX_COLUMN ∨
            e.type = some ComponentType.VECTOR_COMPONENT
        · cases t with
          | basic bt prec =>
            simp only [isValidTypePathTail, hmv, not_true, if_neg] at h
            by_cases hm : e.type = some ComponentType.MATRIX_COLUMN
            · by_cases hmat : isDataTypeMatrix bt = true
              · obtain ⟨r, hr, hvec, hsc⟩ := rows_of_matrix bt hmat
                simp only [hm, hmat, if_pos, not_true, if_neg, hr] at h
                cases rest with
                | nil =>
                  refine ⟨VarType.basic (getDataTypeFloatVec r) prec, ?_⟩
                  simp [getVarTypeAux, hm, VarType.getBasicTypeE,
                    VarType.getPrecisionE, hr, pure, Except.pure]
                | cons e2 rest2 =>
                  by_cases he2 : e2.type = some ComponentType.VECTOR_COMPONENT
                  · simp only [he2, hvec, if_pos, not_true, if_neg, pure,
                      Except.pure, Except.ok.injEq] at h
                    have hempty : rest2 = [] := by
                      cases rest2 with
                      | nil => rfl
                      | cons x xs => simp at h
                    subst hempty
                    refine ⟨VarType.basic DataType.FLOAT prec, ?_⟩
                    simp [getVarTypeAux, hm, he2, VarType.getBasicTypeE,
                      VarType.getPrecisionE, hr, hsc, pure, Except.pure]
                  · simp only [he2, if_neg, pure, Except.pure] at h
                    simp at h
              · simp only [hm, hmat, if_pos, not_false_iff, pure,
                  Except.pure] at h
                simp at h
            · have hv : e.type = some ComponentType.VECTOR_COMPONENT := by
                rcases hmv with hx | hx
                · exact absurd hx hm
                · exact hx
              by_cases hvec : isDataTypeVector bt = true
              · simp only [hm, hv, hvec, if_neg, if_pos, not_true, pure,
                  Except.pure, Except.ok.injEq] at h
                have hempty : rest = [] := by
                  cases rest with
                  | nil => rfl
                  | cons x xs => simp at h
                subst hempty
                obtain ⟨sc, hsc⟩ := scalar_of_vector bt hvec
                refine ⟨VarType.basic sc prec, ?_⟩
                simp [getVarTypeAux, hv, hs, ha, VarType.getBasicTypeE,
                  VarType.getPrecisionE, hsc, pure, Except.pure]
              · simp only [hm, hv, hvec, pure, Except.pure] at h
                simp at h
          | array elementType size =>
            simp only [isValidTypePathTail, hmv, not_true, if_neg, pure,
              Except.pure] at h
            simp at h
          | structType members =>
            simp only [isValidTypePathTail, hmv, not_true, if_neg, pure,
              Except.pure] at h
            simp at h
        · simp only [isValidTypePathTail, hmv, not_false_iff, if_pos] at h
          cases h

theorem valid_append_matrix :
    ∀ (pre : List VarTypeComponent) (t : VarType) (e : VarTypeComponent),
      e.type = some ComponentType.MATRIX_COLUMN →
      isValidTypePathAux t (pre ++ [e]) = .ok true →
      ∃ bt prec r,
        isValidTypePathAux t pre = .ok true ∧
        getVarTypeAux t pre = .ok (.basic bt prec) ∧
        isDataTypeMatrix bt = true ∧
        getDataTypeMatrixNumRows bt = .ok r ∧
        getVarTypeAux t (pre ++ [e]) =
          .ok (.basic (getDataTypeFloatVec r) prec) := by
  intro pre
  induction pre with
  | nil =>
    intro t e he h
    have hs : ¬ e.type = some ComponentType.STRUCT_MEMBER := by simp [he]
    have ha : ¬ e.type = some ComponentType.ARRAY_ELEMENT := by simp [he]
    simp only [List.nil_append, isValidTypePathAux, hs, ha, if_neg] at h
    cases t with
    | basic bt prec =>
      by_cases hmat : isDataTypeMatrix bt = true
      · obtain ⟨r, hr, hvec, hsc⟩ := rows_of_matrix bt hmat
        refine ⟨bt, prec, r, rfl, rfl, hmat, hr, ?_⟩
        simp [getVarTypeAux, he, VarType.getBasicTypeE, VarType.getPrecisionE,
          hr, pure, Except.pure]
      · simp [isValidTypePathTail, he, hmat, pure, Except.pure] at h
    | array elementType size =>
      simp [isValidTypePathTail, he, pure, Except.pure] at h
    | structType members =>
      simp [isValidTypePathTail, he, pure, Except.pure] at h
  | cons p pre2 ih =>
    intro t e he h
    rw [List.cons_append] at h
    by_cases hs : p.type = some ComponentType.STRUCT_MEMBER
    · cases t with
      | structType members =>
        simp only [isValidTypePathAux, hs, if_pos] at h
        by_cases hb : inBounds p.index 0 (members.length : Int) = true
        · simp only [hb, not_true, if_neg, if_false] at h
          obtain ⟨m, hm⟩ := structGetMember_of_inBounds members p.index hb
          rw [hm] at h
          obtain ⟨bt, prec, r, h1, h2, h3, h4, h5⟩ := ih m.2 e he h
          refine ⟨bt, prec, r, ?_, ?_, h3, h4, ?_⟩
          · simp only [isValidTypePathAux, hs, if_pos, hb, not_true, if_neg,
              if_false, hm]
            exact h1
          · simp only [getVarTypeAux, hs, if_pos, hm]
            exact h2
          · rw [List.cons_append]
            simp only [getVarTypeAux, hs, if_pos, hm]
            exact h5
        · simp [hb, pure, Except.pure] at h
      | basic bt prec =>
        simp [isValidTypePathAux, hs, pure, Except.pure] at h
      | array elementType size =>
        simp [isValidTypePathAux, hs, pure, Except.pure] at h
    · by_cases ha : p.type = some ComponentType.ARRAY_ELEMENT
      · cases t with
        | array elementType size =>
          simp only [isValidTypePathAux, hs, ha, if_neg, if_pos] at h
          have hguard : ¬ (size ≠ UNSIZED_ARRAY ∧
              ¬ inBounds p.index 0 size = true) := by
            intro hg
            rw [if_pos hg] at h
            simp [pure, Except.pure] at h
          rw [if_neg hguard] at h
          obtain ⟨bt, prec, r, h1, h2, h3, h4, h5⟩ := ih elementType e he h
          refine ⟨bt, prec, r, ?_, ?_, h3, h4, ?_⟩
          · simp only [isValidTypePathAux, hs, ha, if_neg, if_pos]
            rw [if_neg hguard]
            exact h1
          · simp only [getVarTypeAux, hs, ha, if_neg, if_pos]
            exact h2
          · rw [List.cons_append]
            simp only [getVarTypeAux, hs, ha, if_neg, if_pos]
            exact h5
        | basic bt prec =>
          simp [isValidTypePathAux, hs, ha, pure, Except.pure] at h
        | structType members =>
          simp [isValidTypePathAux, hs, ha, pure, Except.pure] at h
      · simp only [isValidTypePathAux, hs, ha, if_neg] at h
        by_cases hmv : p.type = some ComponentType.MATRIX_COLUMN ∨
            p.type = some ComponentType.VECTOR_COMPONENT
        · cases t with
          | basic bt prec =>
            simp only [isValidTypePathTail, hmv, not_true, if_neg] at h
            by_cases hm : p.type = some ComponentType.MATRIX_COLUMN
            · by_cases hmat : isDataTypeMatrix bt = true
              · obtain ⟨r, hr, hvec, hsc⟩ := rows_of_matrix bt hmat
                simp only [hm, hmat, if_pos, not_true, if_neg, hr] at h
                cases pre2 with
                | nil =>
                  simp only [List.nil_append] at h
                  have hnv : ¬ e.type = some ComponentType.VECTOR_COMPONENT := by
                    simp [he]
                  rw [if_neg hnv] at h
                  simp [pure, Except.pure] at h
                | cons q qs =>
                  simp only [List.cons_append] at h
                  by_cases hq : q.type = some ComponentType.VECTOR_COMPONENT
                  · simp only [hq, if_pos, hvec, not_true, if_neg, if_false,
                      pure, Except.pure, Except.ok.injEq] at h
                    simp at h
                  · rw [if_neg hq] at h
                    simp [pure, Except.pure] at h
              · simp [hm, hmat, pure, Except.pure] at h
            · have hv : p.type = some ComponentType.VECTOR_COMPONENT := by
                rcases hmv with hx | hx
                · exact absurd hx hm
                · exact hx
              by_cases hvec : isDataTypeVector bt = true
              · simp only [hm, hv, hvec, if_neg, if_pos, not_true, pure,
                  Except.pure, Except.ok.injEq] at h
                simp at h
              · simp [hm, hv, hvec, pure, Except.pure] at h
          | array elementType size =>
            simp [isValidTypePathTail, hmv, pure, Except.pure] at h
          | structType members =>
            simp [isValidTypePathTail, hmv, pure, Except.pure] at h
        · simp only [isValidTypePathTail, hmv, not_false_iff, if_pos] at h
          cases h

theorem valid_append_vector :
    ∀ (pre : List VarTypeComponent) (t : VarType) (e : VarTypeComponent),
      e.type = some ComponentType.VECTOR_COMPONENT →
      isValidTypePathAux t (pre ++ [e]) = .ok true →
      ∃ bt prec sc,
        isValidTypePathAux t pre = .ok true ∧
        getVarTypeAux t pre = .ok (.basic bt prec) ∧
        isDataTypeVector bt = true ∧
        getDataTypeScalarTypeAsDataType bt = .ok sc ∧
        getVarTypeAux t (pre ++ [e]) = .ok (.basic sc prec) := by
  intro pre
  induction pre with
  | nil =>
    intro t e he h
    have hs : ¬ e.type = some ComponentType.STRUCT_MEMBER := by simp [he]
    have ha : ¬ e.type = some ComponentType.ARRAY_ELEMENT := by simp [he]
    have hm : ¬ e.type = some ComponentType.MATRIX_COLUMN := by simp [he]
    simp only [List.nil_append, isValidTypePathAux, hs, ha, if_neg] at h
    cases t with
    | basic bt prec =>
      by_cases hvec : isDataTypeVector bt = true
      · obtain ⟨sc, hsc⟩ := scalar_of_vector bt hvec
        refine ⟨bt, prec, sc, rfl, rfl, hvec, hsc, ?_⟩
        simp [getVarTypeAux, he, hm, VarType.getBasicTypeE,
          VarType.getPrecisionE, hsc, pure, Except.pure]
      · simp [isValidTypePathTail, he, hm, hvec, pure, Except.pure] at h
    | array elementType size =>
      simp [isValidTypePathTail, he, pure, Except.pure] at h
    | structType members =>
      simp [isValidTypePathTail, he, pure, Except.pure] at h
  | cons p pre2 ih =>
    intro t e he h
    rw [List.cons_append] at h
    by_cases hs : p.type = some ComponentType.STRUCT_MEMBER
    · cases t with
      | structType members =>
        simp only [isValidTypePathAux, hs, if_pos] at h
        by_cases hb : inBounds p.index 0 (members.length : Int) = true
        · simp only [hb, not_true, if_neg, if_false] at h
          obtain ⟨m, hm⟩ := structGetMember_of_inBounds members p.index hb
          rw [hm] at h
          obtain ⟨bt, prec, sc, h1, h2, h3, h4, h5⟩ := ih m.2 e he h
          refine ⟨bt, prec, sc, ?_, ?_, h3, h4, ?_⟩
          · simp only [isValidTypePathAux, hs, if_pos, hb, not_true, if_neg,
              if_false, hm]
            exact h1
          · simp only [getVarTypeAux, hs, if_pos, hm]
            exact h2
          · rw [List.cons_append]
            simp only [getVarTypeAux, hs, if_pos, hm]
            exact h5
        · simp [hb, pure, Except.pure] at h
      | basic bt prec =>
        simp [isValidTypePathAux, hs, pure, Except.pure] at h
      | array elementType size =>
        simp [isValidTypePathAux, hs, pure, Except.pure] at h
    · by_cases ha : p.type = some ComponentType.ARRAY_ELEMENT
      · cases t with
        | array elementType size =>
          simp only [isValidTypePathAux, hs, ha, if_neg, if_pos] at h
          have hguard : ¬ (size ≠ UNSIZED_ARRAY ∧
              ¬ inBounds p.index 0 size = true) := by
            intro hg
            rw [if_pos hg] at h
            simp [pure, Except.pure] at h
          rw [if_neg hguard] at h
          obtain ⟨bt, prec, sc, h1, h2, h3, h4, h5⟩ := ih elementType e he h
          refine ⟨bt, prec, sc, ?_, ?_, h3, h4, ?_⟩
          · simp only [isValidTypePathAux, hs, ha, if_neg, if_pos]
            rw [if_neg hguard]
            exact h1
          · simp only [getVarTypeAux, hs, ha, if_neg, if_pos]
            exact h2
          · rw [List.cons_append]
            simp only [getVarTypeAux, hs, ha, if_neg, if_pos]
            exact h5
        | basic bt prec =>
          simp [isValidTypePathAux, hs, ha, pure, Except.pure] at h
        | structType members =>
          simp [isValidTypePathAux, hs, ha, pure, Except.pure] at h
      · simp only [isValidTypePathAux, hs, ha, if_neg] at h
        by_cases hmv : p.type = some ComponentType.MATRIX_COLUMN ∨
            p.type = some ComponentType.VECTOR_COMPONENT
        · cases t with
          | basic bt prec =>
            simp only [isValidTypePathTail, hmv, not_true, if_neg] at h
            by_cases hm : p.type = some ComponentType.MATRIX_COLUMN
            · by_cases hmat : isDataTypeMatrix bt = true
              · obtain ⟨r, hr, hvec, hsc⟩ := rows_of_matrix bt hmat
                simp only [hm, hmat, if_pos, not_true, if_neg, hr] at h
                cases pre2 with
                | nil =>
                  simp only [List.nil_append] at h
                  refine ⟨getDataTypeFloatVec r, prec, DataType.FLOAT, ?_, ?_,
                    hvec, hsc, ?_⟩
                  · simp [isValidTypePathAux, hs, ha, isValidTypePathTail, hm,
                      hmv, hmat, hr, pure, Except.pure]
                  · simp [getVarTypeAux, hs, ha, hm, VarType.getBasicTypeE,
                      VarType.getPrecisionE, hr, pure, Except.pure]
                  · simp [getVarTypeAux, hs, ha, hm, he, VarType.getBasicTypeE,
                      VarType.getPrecisionE, hr, hsc, pure, Except.pure]
                | cons q qs =>
                  simp only [List.cons_append] at h
                  by_cases hq : q.type = some ComponentType.VECTOR_COMPONENT
                  · simp only [hq, if_pos, hvec, not_true, if_neg, if_false,
                      pure, Except.pure, Except.ok.injEq] at h
                    simp at h
                  · rw [if_neg hq] at h
                    simp [pure, Except.pure] at h
              · simp [hm, hmat, pure, Except.pure] at h
            · have hv : p.type = some ComponentType.VECTOR_COMPONENT := by
                rcases hmv with hx | hx
                · exact absurd hx hm
                · exact hx
              by_cases hvec : isDataTypeVector bt = true
              · simp only [hm, hv, hvec, if_neg, if_pos, not_true, pure,
                  Except.pure, Except.ok.injEq] at h
                simp at h
              · simp [hm, hv, hvec, pure, Except.pure] at h
          | array elementType size =>
            simp [isValidTypePathTail, hmv, pure, Except.pure] at h
          | structType members =>
            simp [isValidTypePathTail, hmv, pure, Except.pure] at h
        · simp only [isValidTypePathTail, hmv, not_false_iff, if_pos] at h
          cases h

/-- When validation succeeds, `getVarType` is its second walk. -/
theorem getVarType_eq_aux (t : VarType) (l : List VarTypeComponent)
    (h : isValidTypePath t l = .ok true) :
    getVarType t l = getVarTypeAux t l := by
  simp [getVarType, h]

/-- C1: whenever `isValidTypePath` returns a boolean `b`, `getVarType`
throws exactly when `b` is false; and on a valid path ending in a
matrix-column (resp. vector-component) step, `getVarType` returns a freshly
built basic type: the float vector of the matrix's row count (resp. the
vector's scalar component type), carrying the precision of the basic type
the struct/array prefix of the path resolves to. -/
theorem c1_resolve_validate_agree :
    (∀ (root : VarType) (path : List VarTypeComponent) (b : Bool),
       isValidTypePath root path = .ok b →
         isThrow (getVarType root path) = !b) ∧
    (∀ (root : VarType) (pre : List VarTypeComponent) (e : VarTypeComponent),
       e.type = some ComponentType.MATRIX_COLUMN →
       isValidTypePath root (pre ++ [e]) = .ok true →
       ∃ bt prec r,
         getVarType root pre = .ok (VarType.basic bt prec) ∧
         isDataTypeMatrix bt = true ∧
         getDataTypeMatrixNumRows bt = .ok r ∧
         getVarType root (pre ++ [e]) =
           .ok (VarType.basic (getDataTypeFloatVec r) prec)) ∧
    (∀ (root : VarType) (pre : List VarTypeComponent) (e : VarTypeComponent),
       e.type = some ComponentType.VECTOR_COMPONENT →
       isValidTypePath root (pre ++ [e]) = .ok true →
       ∃ bt prec sc,
         getVarType root pre = .ok (VarType.basic bt prec) ∧
         isDataTypeVector bt = true ∧
         getDataTypeScalarTypeAsDataType bt = .ok sc ∧
         getVarType root (pre ++ [e]) = .ok (VarType.basic sc prec)) := by
  refine ⟨?_, ?_, ?_⟩
  · intro root path b hb
    cases b with
    | true =>
      obtain ⟨r, hr⟩ := validAux_imp_getAux_ok path root hb
      rw [getVarType_eq_aux root path hb, hr]
      rfl
    | false =>
      simp [getVarType, hb, isThrow]
  · intro root pre e he h
    obtain ⟨bt, prec, r, h1, h2, h3, h4, h5⟩ :=
      valid_append_matrix pre root e he h
    refine ⟨bt, prec, r, ?_, h3, h4, ?_⟩
    · rw [getVarType_eq_aux root pre h1]
      exact h2
    · rw [getVarType_eq_aux root (pre ++ [e]) h]
      exact h5
  · intro root pre e he h
    obtain ⟨bt, prec, sc, h1, h2, h3, h4, h5⟩ :=
      valid_append_vector pre root e he h
    refine ⟨bt, prec, sc, ?_, h3, h4, ?_⟩
    · rw [getVarType_eq_aux root pre h1]
      exact h2
    · rw [getVarType_eq_aux root (pre ++ [e]) h]
      exact h5

/-- Witness for C1: a `mat2` with one matrix-column step, and a `vec2` with
one vector-component step. -/
theorem c1_resolve_validate_agree_witness :
    isThrow (getVarType mat2Type [colComp]) = !true ∧
    (∃ bt prec r,
       getVarType mat2Type ([] : List VarTypeComponent) =
         .ok (VarType.basic bt prec) ∧
       isDataTypeMatrix bt = true ∧
       getDataTypeMatrixNumRows bt = .ok r ∧
       getVarType mat2Type ([] ++ [colComp]) =
         .ok (VarType.basic (getDataTypeFloatVec r) prec)) ∧
    (∃ bt prec sc,
       getVarType vec2Type ([] : List VarTypeComponent) =
         .ok (VarType.basic bt prec) ∧
       isDataTypeVector bt = true ∧
       getDataTypeScalarTypeAsDataType bt = .ok sc ∧
       getVarType vec2Type ([] ++ [vecComp]) =
         .ok (VarType.basic sc prec)) :=
  ⟨c1_resolve_validate_agree.1 mat2Type [colComp] true rfl,
   c1_resolve_validate_agree.2.1 mat2Type [] colComp rfl rfl,
   c1_resolve_validate_agree.2.2 vec2Type [] vecComp rfl rfl⟩
